import Mathlib

/-!
Shallow embedding of the SecretNetwork enclave contract-engine core:
`contract_operations.rs` (lifecycle orchestration, admin authority resolution,
the hardcoded admin table) and `cosmos-types/src/types.rs` (`HandleType`,
`DirectSdkMsg`).  Byte buffers are modelled as `List Nat`, fallible Rust
functions as `Except EnclaveError`.  External collaborators (serde, bech32,
channel crypto, the wasm engine, `contract_validation.rs`, `io.rs`,
`message.rs` — none of which are under `src/`) are modelled as explicit
function parameters gathered in the `Collab` structure, so every theorem about
a lifecycle operation quantifies over their behaviour.
-/

namespace SecretNet

/-- Raw byte buffers (`Vec<u8>` / `&[u8]`). -/
abbrev Bytes := List Nat

/-- The subset of `EnclaveError` variants used by the embedded code
(`enclave_ffi_types::EnclaveError`). -/
inductive EnclaveError where
  | FailedToDeserialize
  | ValidationFailure
  | FailedFunctionCall
  deriving DecidableEq, Repr

/-- `HandleType` from `cosmos-types/src/types.rs` lines 151-165: a closed
enum of the eleven handle call kinds. -/
inductive HandleType where
  | HANDLE_TYPE_EXECUTE
  | HANDLE_TYPE_REPLY
  | HANDLE_TYPE_IBC_CHANNEL_OPEN
  | HANDLE_TYPE_IBC_CHANNEL_CONNECT
  | HANDLE_TYPE_IBC_CHANNEL_CLOSE
  | HANDLE_TYPE_IBC_PACKET_RECEIVE
  | HANDLE_TYPE_IBC_PACKET_ACK
  | HANDLE_TYPE_IBC_PACKET_TIMEOUT
  | HANDLE_TYPE_IBC_WASM_HOOKS_INCOMING_TRANSFER
  | HANDLE_TYPE_IBC_WASM_HOOKS_OUTGOING_TRANSFER_ACK
  | HANDLE_TYPE_IBC_WASM_HOOKS_OUTGOING_TRANSFER_TIMEOUT
  deriving DecidableEq, Repr

/-- `HandleType::try_from` (`types.rs` lines 168-186).  The Rust source takes
a `u8`; we model the byte as a `Nat` (the wildcard arm covers everything
above 10 either way). -/
def HandleType.try_from (value : Nat) : Except EnclaveError HandleType :=
  match value with
  | 0 => .ok .HANDLE_TYPE_EXECUTE
  | 1 => .ok .HANDLE_TYPE_REPLY
  | 2 => .ok .HANDLE_TYPE_IBC_CHANNEL_OPEN
  | 3 => .ok .HANDLE_TYPE_IBC_CHANNEL_CONNECT
  | 4 => .ok .HANDLE_TYPE_IBC_CHANNEL_CLOSE
  | 5 => .ok .HANDLE_TYPE_IBC_PACKET_RECEIVE
  | 6 => .ok .HANDLE_TYPE_IBC_PACKET_ACK
  | 7 => .ok .HANDLE_TYPE_IBC_PACKET_TIMEOUT
  | 8 => .ok .HANDLE_TYPE_IBC_WASM_HOOKS_INCOMING_TRANSFER
  | 9 => .ok .HANDLE_TYPE_IBC_WASM_HOOKS_OUTGOING_TRANSFER_ACK
  | 10 => .ok .HANDLE_TYPE_IBC_WASM_HOOKS_OUTGOING_TRANSFER_TIMEOUT
  | _ => .error .FailedToDeserialize

/-- `VerifyParamsType` (`types.rs` lines 205-214). -/
inductive VerifyParamsType where
  | HandleType (h : HandleType)
  | Init
  | Migrate
  | UpdateAdmin
  deriving DecidableEq, Repr

/-- `SignMode` (the five variants deserialized by `SignModeDef`,
`types.rs` lines 140-149). -/
inductive SignMode where
  | SIGN_MODE_UNSPECIFIED
  | SIGN_MODE_DIRECT
  | SIGN_MODE_TEXTUAL
  | SIGN_MODE_LEGACY_AMINO_JSON
  | SIGN_MODE_EIP_191
  deriving DecidableEq, Repr

/-- `Coin` (`cw_types_v010::coins::Coin`, an external collaborator type):
an amount plus a denomination. -/
structure Coin where
  amount : Nat
  denom : String
  deriving DecidableEq, Repr

/-- `SigInfo` (`types.rs` lines 216-226). -/
structure SigInfo where
  tx_bytes : Bytes
  sign_bytes : Bytes
  sign_mode : SignMode
  mode_info : Bytes
  public_key : Bytes
  signature : Bytes
  callback_sig : Option Bytes
  deriving DecidableEq, Repr

/-- `Height` (`types.rs` lines 509-513). -/
structure Height where
  revision_number : Nat
  revision_height : Nat
  deriving DecidableEq, Repr

/-- `Packet` (`types.rs` lines 620-632). -/
structure Packet where
  sequence : Nat
  source_port : String
  source_channel : String
  destination_port : String
  destination_channel : String
  data : Bytes
  deriving DecidableEq, Repr

/-- `DirectSdkMsg` (`types.rs` lines 634-695): the canonical independently
parsed on-chain message.  `CanonicalAddr` is a byte buffer and `HumanAddr`
a string. -/
inductive DirectSdkMsg where
  | MsgExecuteContract (sender : Bytes) (contract : String) (msg : Bytes)
      (sent_funds : List Coin)
  | MsgInstantiateContract (sender : Bytes) (init_msg : Bytes)
      (init_funds : List Coin) (label : String) (admin : String) (code_id : Nat)
  | MsgMigrateContract (sender : Bytes) (contract : String) (msg : Bytes)
      (code_id : Nat)
  | MsgUpdateAdmin (sender : Bytes) (new_admin : String) (contract : String)
  | MsgClearAdmin (sender : Bytes) (contract : String)
  | MsgAcknowledgement (packet : Packet) (acknowledgement : Bytes)
      (proof_acked : Bytes) (proof_height : Option Height) (signer : String)
  | MsgTimeout (packet : Packet) (proof_unreceived : Bytes)
      (proof_height : Option Height) (next_sequence_recv : Nat) (signer : String)
  | MsgRecvPacket (packet : Packet) (proof_commitment : Bytes)
      (proof_height : Option Height) (signer : String)
  | Other
  deriving DecidableEq, Repr

/-- The per-variant protobuf parsers called by `DirectSdkMsg::from_bytes`
(`types.rs` lines 736-943).  Their bodies delegate to the external
`cosmos_proto` protobuf decoder, which is not under `src/`, so each parser is
a collaborator function here. -/
structure DirectParsers where
  try_parse_instantiate : Bytes → Except EnclaveError DirectSdkMsg
  try_parse_execute : Bytes → Except EnclaveError DirectSdkMsg
  try_parse_migrate : Bytes → Except EnclaveError DirectSdkMsg
  try_parse_update_admin : Bytes → Except EnclaveError DirectSdkMsg
  try_parse_clear_admin : Bytes → Except EnclaveError DirectSdkMsg
  try_parse_ibc_recv_packet : Bytes → Except EnclaveError DirectSdkMsg
  try_parse_ibc_ack : Bytes → Except EnclaveError DirectSdkMsg
  try_parse_ibc_timeout : Bytes → Except EnclaveError DirectSdkMsg

/-- `DirectSdkMsg::from_bytes` (`types.rs` lines 698-710): dispatch on the
`type_url`; every unrecognized url maps to `Ok(DirectSdkMsg::Other)`. -/
def DirectSdkMsg.from_bytes (p : DirectParsers) (type_url : String)
    (bytes : Bytes) : Except EnclaveError DirectSdkMsg :=
  if type_url = "/secret.compute.v1beta1.MsgInstantiateContract" then
    p.try_parse_instantiate bytes
  else if type_url = "/secret.compute.v1beta1.MsgExecuteContract" then
    p.try_parse_execute bytes
  else if type_url = "/secret.compute.v1beta1.MsgMigrateContract" then
    p.try_parse_migrate bytes
  else if type_url = "/secret.compute.v1beta1.MsgUpdateAdmin" then
    p.try_parse_update_admin bytes
  else if type_url = "/secret.compute.v1beta1.MsgClearAdmin" then
    p.try_parse_clear_admin bytes
  else if type_url = "/ibc.core.channel.v1.MsgRecvPacket" then
    p.try_parse_ibc_recv_packet bytes
  else if type_url = "/ibc.core.channel.v1.MsgAcknowledgement" then
    p.try_parse_ibc_ack bytes
  else if type_url = "/ibc.core.channel.v1.MsgTimeout" then
    p.try_parse_ibc_timeout bytes
  else
    .ok .Other

/-- The eight type urls that `DirectSdkMsg::from_bytes` recognizes. -/
def recognizedTypeUrls : List String :=
  [ "/secret.compute.v1beta1.MsgInstantiateContract"
  , "/secret.compute.v1beta1.MsgExecuteContract"
  , "/secret.compute.v1beta1.MsgMigrateContract"
  , "/secret.compute.v1beta1.MsgUpdateAdmin"
  , "/secret.compute.v1beta1.MsgClearAdmin"
  , "/ibc.core.channel.v1.MsgRecvPacket"
  , "/ibc.core.channel.v1.MsgAcknowledgement"
  , "/ibc.core.channel.v1.MsgTimeout" ]

end SecretNet

namespace SecretNet

/-- `HARDCODED_CONTRACT_ADMINS` (`contract_operations.rs` lines 256-458): the
static migration allow-list, as the literal (contract, admin) human-address
pairs of the source.  The Rust code builds a `HashMap` from this array; every
duplicated key in the source carries the same value, so an ordered
association-list lookup has the same semantics. -/
def HARDCODED_CONTRACT_ADMINS : List (String × String) := [
("secret1k0jntykt7e4g3y88ltc60czgjuqdy4c9e8fzek", "secret1lrnpnp6ltfxwuhjeaz97htnajh096q7y72rp5d"),
    ("secret14mzwd0ps5q277l20ly2q3aetqe3ev4m4260gf4", "secret1lrnpnp6ltfxwuhjeaz97htnajh096q7y72rp5d"),
    ("secret1k8cge73c3nh32d4u0dsd5dgtmk63shtlrfscj5", "secret1lrnpnp6ltfxwuhjeaz97htnajh096q7y72rp5d"),
    ("secret1smmc5k24lcn4j2j8f3w0yaeafga6wmzl0qct03", "secret1lrnpnp6ltfxwuhjeaz97htnajh096q7y72rp5d"),
    ("secret1zwwealwm0pcl9cul4nt6f38dsy6vzplw8lp3qg", "secret1lrnpnp6ltfxwuhjeaz97htnajh096q7y72rp5d"),
    ("secret1ntvxnf5hzhzv8g87wn76ch6yswdujqlgmjh32w", "secret1lrnpnp6ltfxwuhjeaz97htnajh096q7y72rp5d"),
    ("secret1rw2l7z22s3ed6dl5v70ktvnckhurldy23a3a58", "secret1lrnpnp6ltfxwuhjeaz97htnajh096q7y72rp5d"),
    ("secret1tatdlkyznf00m3a7hftw5daaq2nk38ugfphuyr", "secret1lrnpnp6ltfxwuhjeaz97htnajh096q7y72rp5d"),
    ("secret1grg9unv2ue8cf98t50ea45prce7gcrj2n232kq", "secret1lrnpnp6ltfxwuhjeaz97htnajh096q7y72rp5d"),
    ("secret1dtghxvrx35nznt8es3fwxrv4qh56tvxv22z79d", "secret1lrnpnp6ltfxwuhjeaz97htnajh096q7y72rp5d"),
    ("secret16cwf53um7hgdvepfp3jwdzvwkt5qe2f9vfkuwv", "secret1lrnpnp6ltfxwuhjeaz97htnajh096q7y72rp5d"),
    ("secret1kjqktuq2wq6mk7l0ecvk2cwcskjmv3ghpklctn", "secret1lrnpnp6ltfxwuhjeaz97htnajh096q7y72rp5d"),
    ("secret1gaew7k9tv4hlx2f4wq4ta4utggj4ywpkjysqe8", "secret1lrnpnp6ltfxwuhjeaz97htnajh096q7y72rp5d"),
    ("secret1w8d0ntrhrys4yzcfxnwprts7gfg5gfw86ccdpf", "secret1lrnpnp6ltfxwuhjeaz97htnajh096q7y72rp5d"),
    ("secret159p22zvq2wzsdtqhm2plp4wg33srxp2hf0qudc", "secret1lrnpnp6ltfxwuhjeaz97htnajh096q7y72rp5d"),
    ("secret1x0dqckf2khtxyrjwhlkrx9lwwmz44k24vcv2vv", "secret1lrnpnp6ltfxwuhjeaz97htnajh096q7y72rp5d"),
    ("secret17gg8xcx04ldqkvkrd7r9w60rdae4ck8aslt9cf", "secret1lrnpnp6ltfxwuhjeaz97htnajh096q7y72rp5d"),
    ("secret1h5d3555tz37crrgl5rppu2np2fhaugq3q8yvv9", "secret1lrnpnp6ltfxwuhjeaz97htnajh096q7y72rp5d"),
    ("secret1n4dp5dk6fufqmaalu9y7pnmk2r0hs7kc66a55f", "secret1lrnpnp6ltfxwuhjeaz97htnajh096q7y72rp5d"),
    ("secret15rxfz2w2tallu9gr9zjxj8wav2lnz4gl9pjccj", "secret1lrnpnp6ltfxwuhjeaz97htnajh096q7y72rp5d"),
    ("secret1vcau4rkn7mvfwl8hf0dqa9p0jr59983e3qqe3z", "secret1lrnpnp6ltfxwuhjeaz97htnajh096q7y72rp5d"),
    ("secret1vkq022x4q8t8kx9de3r84u669l65xnwf2lg3e6", "secret1lrnpnp6ltfxwuhjeaz97htnajh096q7y72rp5d"),
    ("secret139qfh3nmuzfgwsx2npnmnjl4hrvj3xq5rmq8a0", "secret1lrnpnp6ltfxwuhjeaz97htnajh096q7y72rp5d"),
    ("secret1guyayjwg5f84daaxl7w84skd8naxvq8vz9upqx", "secret1lrnpnp6ltfxwuhjeaz97htnajh096q7y72rp5d"),
    ("secret19xsac2kstky8nhgvvz257uszt44g0cu6ycd5e4", "secret1lrnpnp6ltfxwuhjeaz97htnajh096q7y72rp5d"),
    ("secret1t642ayn9rhl5q9vuh4n2jkx0gpa9r6c3sl96te", "secret1lrnpnp6ltfxwuhjeaz97htnajh096q7y72rp5d"),
    ("secret1c2prkwd8e6ratk42l4vrnwz34knfju6hmp7mg7", "secret1lrnpnp6ltfxwuhjeaz97htnajh096q7y72rp5d"),
    ("secret1wk5j2cntwg2fgklf0uta3tlkvt87alfj7kepuw", "secret1lrnpnp6ltfxwuhjeaz97htnajh096q7y72rp5d"),
    ("secret1egqlkasa6xe6efmfp9562sfj07lq44z7jngu5k", "secret1lrnpnp6ltfxwuhjeaz97htnajh096q7y72rp5d"),
    ("secret16e230j6qm5u5q30pcc6qv726ae30ak6lzq0zvf", "secret1lrnpnp6ltfxwuhjeaz97htnajh096q7y72rp5d"),
    ("secret1tqmms5awftpuhalcv5h5mg76fa0tkdz4jv9ex4", "secret1lrnpnp6ltfxwuhjeaz97htnajh096q7y72rp5d"),
    ("secret1yxjmepvyl2c25vnt53cr2dpn8amknwausxee83", "secret1lrnpnp6ltfxwuhjeaz97htnajh096q7y72rp5d"),
    ("secret1hvg7am0cwfu6hfnjhere35kne23f3z6z80rlty", "secret1nnt3t7ms82vf86jwq88zvwvzvm2mkhxxtevzut"),
    ("secret1tejwnma86amug6mfy74qhwclsx92zutd9rfquy", "secret1j7tmjrh5wkxf4yx0kas0ja4an6wktss7mvqenm"),
    ("secret1k5kn0a9gqap7uex0l2xj96sw6lxwqwsghewlvn", "secret1j7tmjrh5wkxf4yx0kas0ja4an6wktss7mvqenm"),
    ("secret139gyx9n6ahk7lnq0kt0nczt3tmruzmfx0fgk4h", "secret1j7tmjrh5wkxf4yx0kas0ja4an6wktss7mvqenm"),
    ("secret1kl86lu8v3mwkjhvvfrz3p60qvmsrtyxre6d7mj", "secret1j7tmjrh5wkxf4yx0kas0ja4an6wktss7mvqenm"),
    ("secret19qyld7sfp9xnh9qt8efllttdnxu5pt9vrmvulr", "secret1j7tmjrh5wkxf4yx0kas0ja4an6wktss7mvqenm"),
    ("secret1q08savjzkejanz2s7n56yn8ccekaj0h8d4xk7h", "secret1j7tmjrh5wkxf4yx0kas0ja4an6wktss7mvqenm"),
    ("secret1gt6g8dhdr4v7lhtkpxmvr8us9k9cd4zga7cnz9", "secret1j7tmjrh5wkxf4yx0kas0ja4an6wktss7mvqenm"),
    ("secret19qyld7sfp9xnh9qt8efllttdnxu5pt9vrmvulr", "secret1j7tmjrh5wkxf4yx0kas0ja4an6wktss7mvqenm"),
    ("secret1v3uvahkhtzxnq0m767ekkmknlflh4y5nrvdy7l", "secret1j7tmjrh5wkxf4yx0kas0ja4an6wktss7mvqenm"),
    ("secret1fhh6fjy0wk25qcn6fd977cfwr0mzumkus33e75", "secret1j7tmjrh5wkxf4yx0kas0ja4an6wktss7mvqenm"),
    ("secret1gel0l6qwjzwnhmu9egr4alzagg7h9g3a06pk9l", "secret1j7tmjrh5wkxf4yx0kas0ja4an6wktss7mvqenm"),
    ("secret1s6eugslqmwmpkd2gt29r02tr4v2sspcmf8rflw", "secret1j7tmjrh5wkxf4yx0kas0ja4an6wktss7mvqenm"),
    ("secret1l0nmjc3kv6s57pctm84g4w7nvsdkfsk9g84ewr", "secret1j7tmjrh5wkxf4yx0kas0ja4an6wktss7mvqenm"),
    ("secret1j9mv67qjrlcmlq7d5tdeau5s4zqm22p3880e8g", "secret1j7tmjrh5wkxf4yx0kas0ja4an6wktss7mvqenm"),
    ("secret1s06m6mjmvxnrpsr8dwkndeec40u65p4ll8cs72", "secret1j7tmjrh5wkxf4yx0kas0ja4an6wktss7mvqenm"),
    ("secret1d3pjs4fh7ssjdlganmt55sm4j3gqml706ntedw", "secret1j7tmjrh5wkxf4yx0kas0ja4an6wktss7mvqenm"),
    ("secret1kd5jaxvz946scme034nrfnvp03dhct7r9tl52c", "secret1j7tmjrh5wkxf4yx0kas0ja4an6wktss7mvqenm"),
    ("secret1wjxyyklxerp00wqmc52hjxskjja5mwrm0pqy69", "secret1j7tmjrh5wkxf4yx0kas0ja4an6wktss7mvqenm"),
    ("secret16tz5uwmv47v3jlln56fq5h2f6frl3a944ys3qk", "secret1j7tmjrh5wkxf4yx0kas0ja4an6wktss7mvqenm"),
    ("secret1h6g03h0uf9e59kmc40p7fc4kggjd4umw8u9tc6", "secret1j7tmjrh5wkxf4yx0kas0ja4an6wktss7mvqenm"),
    ("secret13c7gglkw6hh6fl2gejswsz3pkcu00044zczrx9", "secret1j7tmjrh5wkxf4yx0kas0ja4an6wktss7mvqenm"),
    ("secret1duqnqrsnzu53z6dpvegeqjfnrzfm7c3sq09hzr", "secret1j7tmjrh5wkxf4yx0kas0ja4an6wktss7mvqenm"),
    ("secret1d3ksc0tmq2352nj4ke64emxxtvlpp24spxklkf", "secret1j7tmjrh5wkxf4yx0kas0ja4an6wktss7mvqenm"),
    ("secret1krpyrk6r83fveu5w7ukp4v6833gf79kw9tm0mu", "secret1j7tmjrh5wkxf4yx0kas0ja4an6wktss7mvqenm"),
    ("secret1jzcxa66yw4vha92202pmzwwjanljh3mm6qte6m", "secret1j7tmjrh5wkxf4yx0kas0ja4an6wktss7mvqenm"),
    ("secret1fp4p5htcs9cpqw0n8mhm9zvjsu7mn2sdx5fqxt", "secret1j7tmjrh5wkxf4yx0kas0ja4an6wktss7mvqenm"),
    ("secret1s09x2xvfd2lp2skgzm29w2xtena7s8fq98v852", "secret1jj30ulmuxem55awzhfnr802ml7rddufe0jadf7"),
    ("secret167wxv45r2m3r5krlwyjskrk4g5tvmksktvqe6t", "secret1y277c499f44nxe7geeaqw8t6gpge68rcpla9lf"),
    ("secret1qxk2scacpgj2mmm0af60674afl9e6qneg7yuny", "secret1y277c499f44nxe7geeaqw8t6gpge68rcpla9lf"),
    ("secret1mk2yt0gywtz704439mkqzjmntj09r837vc73s3", "secret1y277c499f44nxe7geeaqw8t6gpge68rcpla9lf"),
    ("secret1wdxqz26acf2e6rsac8007pd53ak7n8tgeqr46w", "secret1y277c499f44nxe7geeaqw8t6gpge68rcpla9lf"),
    ("secret18y86hldtdp9ndj0jekcch49kwr0gwy7upe3ffw", "secret1y277c499f44nxe7geeaqw8t6gpge68rcpla9lf"),
    ("secret1jxryqg50gxppm6rukju22hw3g2rar4det40935", "secret1y277c499f44nxe7geeaqw8t6gpge68rcpla9lf"),
    ("secret1lst3x7ye06n2xthfmhs9mqtxtkhg6nnrpdwqjp", "secret1y277c499f44nxe7geeaqw8t6gpge68rcpla9lf"),
    ("secret1hcz23784w6znz3cmqml7ha8g4x6s7qq9v93mtl", "secret1y277c499f44nxe7geeaqw8t6gpge68rcpla9lf"),
    ("secret1dajnm39rdfnhxemhxqk95dmgzffltwx292l97e", "secret1y277c499f44nxe7geeaqw8t6gpge68rcpla9lf"),
    ("secret1lrtayuylgdgdc9ekqw7ln7yhujapy9dg7x5qd0", "secret1y277c499f44nxe7geeaqw8t6gpge68rcpla9lf"),
    ("secret1y6px5x7jzrk8hyvy67f06ytn8v0jwculypwxws", "secret1y277c499f44nxe7geeaqw8t6gpge68rcpla9lf"),
    ("secret1qxexanyg0gj93xulm7jex85f2p0wgjv0xsme7a", "secret1y277c499f44nxe7geeaqw8t6gpge68rcpla9lf"),
    ("secret1552yh3rplmyrjwhcxrq0egg35uy6zwjtszecf0", "secret1y277c499f44nxe7geeaqw8t6gpge68rcpla9lf"),
    ("secret10n2xl5jmez6r9umtdrth78k0vwmce0l5m9f5dm", "secret1y277c499f44nxe7geeaqw8t6gpge68rcpla9lf"),
    ("secret1jnp0yzwdwnft4smpnnywt6yxr288xep4aur5d4", "secret1y277c499f44nxe7geeaqw8t6gpge68rcpla9lf"),
    ("secret1qctuscrtpruqdegx576uam674yw6e5culm5ajj", "secret1y277c499f44nxe7geeaqw8t6gpge68rcpla9lf"),
    ("secret1ctsxnmn4nxqrms5kf42hppzzcn7gs8uafjkv80", "secret1y277c499f44nxe7geeaqw8t6gpge68rcpla9lf"),
    ("secret1lgq7h9lmvc2pf408j2st649n52w50xln529jwg", "secret1y277c499f44nxe7geeaqw8t6gpge68rcpla9lf"),
    ("secret1aut9gnc2leamxhsa0ud76lnf4gge2y4emewrpv", "secret1y277c499f44nxe7geeaqw8t6gpge68rcpla9lf"),
    ("secret166dngdltwaex4vfsdrv957g7qzavl309lcg3d5", "secret1y277c499f44nxe7geeaqw8t6gpge68rcpla9lf"),
    ("secret153wu605vvp934xhd4k9dtd640zsep5jkesstdm", "secret1y277c499f44nxe7geeaqw8t6gpge68rcpla9lf"),
    ("secret1fl449muk5yq8dlad7a22nje4p5d2pnsgymhjfd", "secret1y277c499f44nxe7geeaqw8t6gpge68rcpla9lf"),
    ("secret1k6u0cy4feepm6pehnz804zmwakuwdapm69tuc4", "secret1y277c499f44nxe7geeaqw8t6gpge68rcpla9lf"),
    ("secret1ja0hcwvy76grqkpgwznxukgd7t8a8anmmx05pp", "secret1y277c499f44nxe7geeaqw8t6gpge68rcpla9lf"),
    ("secret1pjhdug87nxzv0esxasmeyfsucaj98pw4334wyc", "secret1y277c499f44nxe7geeaqw8t6gpge68rcpla9lf"),
    ("secret1qyt4l47yq3x43ezle4nwlh5q0sn6f9sesat7ap", "secret1y277c499f44nxe7geeaqw8t6gpge68rcpla9lf"),
    ("secret10egcg03euavu336fzed87m4zdx8jkgzzz7zgmh", "secret1y277c499f44nxe7geeaqw8t6gpge68rcpla9lf"),
    ("secret1vgtmfvzdn7ztn7kcrqd7p6f2z97wvauavp3udh", "secret1y277c499f44nxe7geeaqw8t6gpge68rcpla9lf"),
    ("secret1wn9tdlvut2nz0cpv28qtv74pqx20p847j8gx3w", "secret1y277c499f44nxe7geeaqw8t6gpge68rcpla9lf"),
    ("secret1ffre8nf653pem9hn5f4ep5pg70dd837tucgdyv", "secret1y277c499f44nxe7geeaqw8t6gpge68rcpla9lf"),
    ("secret17ue98qd2akjazu2w2r95cz06mh8pfl3v5hva4j", "secret1y277c499f44nxe7geeaqw8t6gpge68rcpla9lf"),
    ("secret1uekg0c2qenz4mxwpg5j4s439rqu25p4a6wlhk6", "secret1y277c499f44nxe7geeaqw8t6gpge68rcpla9lf"),
    ("secret1nc07allpcszfugmqdse266g4qvhmtt4gzwxdjv", "secret1y277c499f44nxe7geeaqw8t6gpge68rcpla9lf"),
    ("secret1q36njy5vvxnacsjglzsccalmst23ve7qk4dua5", "secret1y277c499f44nxe7geeaqw8t6gpge68rcpla9lf"),
    ("secret19964kxsa07lvz7pmujehpe6mrjfqxf73m86d3j", "secret1y277c499f44nxe7geeaqw8t6gpge68rcpla9lf"),
    ("secret1salm9wmngkn4ukr30gqscmjy6yeau4q8w6esaw", "secret1y277c499f44nxe7geeaqw8t6gpge68rcpla9lf"),
    ("secret149n35d9av2vs874nc3y34n6ukmf49f3ygsmru6", "secret1y277c499f44nxe7geeaqw8t6gpge68rcpla9lf"),
    ("secret1y5ay9sw43rqydyyds6tuam0ugt4rxxu3cmpc79", "secret1y277c499f44nxe7geeaqw8t6gpge68rcpla9lf"),
    ("secret1m393r84za0pwpzxdthhcsqj27qjl7d8ss02hwy", "secret1y277c499f44nxe7geeaqw8t6gpge68rcpla9lf"),
    ("secret1vzczp0z4edjamgcw9dc9y08v7h7vxwg5un229a", "secret1y277c499f44nxe7geeaqw8t6gpge68rcpla9lf"),
    ("secret14xsrnkfv5r5qh7m3csps72z9vg49tkgf7an0d5", "secret1y277c499f44nxe7geeaqw8t6gpge68rcpla9lf"),
    ("secret1u3mp0jtmszw0xn7s5dn69gl0332lx9f60kt8xk", "secret1y277c499f44nxe7geeaqw8t6gpge68rcpla9lf"),
    ("secret19wcw34ddys3d2geyunlf9hn3rz3ycf56pwxevf", "secret1y277c499f44nxe7geeaqw8t6gpge68rcpla9lf"),
    ("secret1a6efnz9y702pctmnzejzkjdyq0m62jypwsfk92", "secret1y277c499f44nxe7geeaqw8t6gpge68rcpla9lf"),
    ("secret1a9g4p64jh7cty5v544lv57yj5auynvjkv62ztf", "secret1y277c499f44nxe7geeaqw8t6gpge68rcpla9lf"),
    ("secret1zm2q7jl70cjk20tjpwflcedfch0ev64txm96zw", "secret1y277c499f44nxe7geeaqw8t6gpge68rcpla9lf"),
    ("secret1l34fyc9g23fnlk896693nw57phevnyha7pt6gj", "secret1y277c499f44nxe7geeaqw8t6gpge68rcpla9lf"),
    ("secret1zw9gwj6kx7vd3xax7wf45y6dmawkj3pd3dk7wt", "secret1y277c499f44nxe7geeaqw8t6gpge68rcpla9lf"),
    ("secret13j4n5gj8857h2j4cnempdkfygrw9snasx4yzw2", "secret1y277c499f44nxe7geeaqw8t6gpge68rcpla9lf"),
    ("secret1fe22vmduz3xt53r5vxcmd567z08g3yryzck8az", "secret1y277c499f44nxe7geeaqw8t6gpge68rcpla9lf"),
    ("secret1c5lu8wz8cfyufng6zpx4jnygkvgsqvj0nmklwd", "secret1y277c499f44nxe7geeaqw8t6gpge68rcpla9lf"),
    ("secret13p8tzt9knzz3eq6u05qtmwjjwzx0cgckpw22us", "secret1y277c499f44nxe7geeaqw8t6gpge68rcpla9lf"),
    ("secret1jas8rrntj4u77qu4vt5wk8y05vtcz40acp3kh9", "secret1y277c499f44nxe7geeaqw8t6gpge68rcpla9lf"),
    ("secret1xr00xvkevscgy3tqm8mnek2x5fj43r2v8wf0y5", "secret1y277c499f44nxe7geeaqw8t6gpge68rcpla9lf"),
    ("secret1jkxd060v6cl0ylj5g9lweg8vrykccpc3uauwrk", "secret1y277c499f44nxe7geeaqw8t6gpge68rcpla9lf"),
    ("secret1tscv0n6hhzfha8rnqrtvanhwa93wn3cdjzdf8q", "secret1y277c499f44nxe7geeaqw8t6gpge68rcpla9lf"),
    ("secret19eptg5ek2n47v5t27fz373wsu0vx9c4vkgv9mu", "secret1y277c499f44nxe7geeaqw8t6gpge68rcpla9lf"),
    ("secret1mad087955ryfa8hxzjtpdrcj7m2qwz8mwa8k8a", "secret1y277c499f44nxe7geeaqw8t6gpge68rcpla9lf"),
    ("secret1u0yg9w8mhj5tlkh8cjr4vhzxwu02hrn4nxan8j", "secret1y277c499f44nxe7geeaqw8t6gpge68rcpla9lf"),
    ("secret16xw90uydr0fplpyx2yljv692k4eem2s4v2e5u2", "secret1y277c499f44nxe7geeaqw8t6gpge68rcpla9lf"),
    ("secret19zqa3hzgywnlt3cn9j9ml2g9uxugkte6n7kk70", "secret1y277c499f44nxe7geeaqw8t6gpge68rcpla9lf"),
    ("secret152alvf6ha9wk3gddkslkrpdlh97w5k32nusf3l", "secret1y277c499f44nxe7geeaqw8t6gpge68rcpla9lf"),
    ("secret10sdpvsf8jvxxed9lsv73t3feun92hq2zkhlwnr", "secret1y277c499f44nxe7geeaqw8t6gpge68rcpla9lf"),
    ("secret1nwx39c3wkz92v3mh5fauvca4ngjt76egu668r5", "secret1y277c499f44nxe7geeaqw8t6gpge68rcpla9lf"),
    ("secret1s03ypg620j7r0dg003qq30x23nmujc8a53dd99", "secret1y277c499f44nxe7geeaqw8t6gpge68rcpla9lf"),
    ("secret1ukec4axjfgqga2gz6pkvll3pmr536f2vrrasjw", "secret1y277c499f44nxe7geeaqw8t6gpge68rcpla9lf"),
    ("secret1chx2cwjn0lnn387t7krzdu4mr4997z9ehaks8v", "secret1y277c499f44nxe7geeaqw8t6gpge68rcpla9lf"),
    ("secret1ygwaq7rxlyfnungn0d268z36mm3c8un76f8atc", "secret1y277c499f44nxe7geeaqw8t6gpge68rcpla9lf"),
    ("secret1z0qac3md6ppa6nvlelx5tazr950pn80edu65dv", "secret1y277c499f44nxe7geeaqw8t6gpge68rcpla9lf"),
    ("secret1nt24y379xjn096z6ep9n0ewlyda6jdmjymf2v4", "secret1y277c499f44nxe7geeaqw8t6gpge68rcpla9lf"),
    ("secret1hnev28m6s2hkzkkdfn7m79kdxg57haacqzwu7g", "secret1y277c499f44nxe7geeaqw8t6gpge68rcpla9lf"),
    ("secret1zcu2dfs62zpc6x4zc7206r45aqkq0ja2y7kxkt", "secret1y277c499f44nxe7geeaqw8t6gpge68rcpla9lf"),
    ("secret17d5xmnkzm2z7376587nlltqgz24jvn5s6v9arm", "secret1y277c499f44nxe7geeaqw8t6gpge68rcpla9lf"),
    ("secret1kfp76a8g9kma0rwg2xxp3xmz35f77u6a58kx30", "secret1y277c499f44nxe7geeaqw8t6gpge68rcpla9lf"),
    ("secret1ltcgd7vrdfx95048yyerlt0hna77t4crfwyd0p", "secret1y277c499f44nxe7geeaqw8t6gpge68rcpla9lf"),
    ("secret12z88kzlqt8agtqsk50r56mxslfpx0k3lwmydu5", "secret1y277c499f44nxe7geeaqw8t6gpge68rcpla9lf"),
    ("secret1sjf4hpn0xc04n68qyxcp88rw6m6lut9uuqzjq9", "secret1y277c499f44nxe7geeaqw8t6gpge68rcpla9lf"),
    ("secret1tykpk8epqp52vtd8d7namhxpkkxxafngku60t2", "secret1y277c499f44nxe7geeaqw8t6gpge68rcpla9lf"),
    ("secret1dmxmqc094rcwdxqfvycfj953zllwe7ejvwwzek", "secret1y277c499f44nxe7geeaqw8t6gpge68rcpla9lf"),
    ("secret1ekgzws0qs854kyr6dlnj6dsvs8l4cqvpw5zax5", "secret1y277c499f44nxe7geeaqw8t6gpge68rcpla9lf"),
    ("secret1avj6r42p258ufqdf0028kfkdhnxdvjayy0rkll", "secret1y277c499f44nxe7geeaqw8t6gpge68rcpla9lf"),
    ("secret1mg86lhvjrswj732w5ztucj425fachvk65kz28s", "secret1y277c499f44nxe7geeaqw8t6gpge68rcpla9lf"),
    ("secret1gkpew7c465pppzxqxuzg94fuylxd7qepf7x8cf", "secret1y277c499f44nxe7geeaqw8t6gpge68rcpla9lf"),
    ("secret10u7mwt8zuqg3jm0fr3n67q3l8c3tmn48nhae2y", "secret1y277c499f44nxe7geeaqw8t6gpge68rcpla9lf"),
    ("secret1daq6wanf2avekg87unx9x3ze3wsvwhtg4m20kz", "secret1y277c499f44nxe7geeaqw8t6gpge68rcpla9lf"),
    ("secret1xj2vyl0xy5evex5j7dcs700ppncmqz4fzxdfh5", "secret1y277c499f44nxe7geeaqw8t6gpge68rcpla9lf"),
    ("secret1sas56qmtsjnjf5u6ctxefazja67laf0kd5va8t", "secret1y277c499f44nxe7geeaqw8t6gpge68rcpla9lf"),
    ("secret1qgjv37xn24mf6pnurt4xqqrr73rthmech23lv4", "secret1y277c499f44nxe7geeaqw8t6gpge68rcpla9lf"),
    ("secret1t7ka0aw9gpvds5nh3ld76ep6cfgncgpydwqphn", "secret1y277c499f44nxe7geeaqw8t6gpge68rcpla9lf"),
    ("secret1y9tgcv4cf8up9kk0vsx57w8448avfszw8jmfwv", "secret1y277c499f44nxe7geeaqw8t6gpge68rcpla9lf"),
    ("secret1jdzytfds8zvpj885rk6pkqje25g73ux29rtlgw", "secret1y277c499f44nxe7geeaqw8t6gpge68rcpla9lf"),
    ("secret1qt3g0wattnh94jw5gd466wfytezuu8ekds4v8k", "secret1y277c499f44nxe7geeaqw8t6gpge68rcpla9lf"),
    ("secret1n23zgcc8qvkd6dnkwwx4jrrv488ng3znufde9j", "secret1y277c499f44nxe7geeaqw8t6gpge68rcpla9lf"),
    ("secret12kwrx4jmzasj7sc4926l49dx5ry3rqnxzk3kny", "secret1y277c499f44nxe7geeaqw8t6gpge68rcpla9lf"),
    ("secret1973luk5acx3kda67jq55vn72h996x7ymctf7xa", "secret1y277c499f44nxe7geeaqw8t6gpge68rcpla9lf"),
    ("secret126ncrl75d5pznp7vgpjnj5e9nksl8lwrpprvfq", "secret1y277c499f44nxe7geeaqw8t6gpge68rcpla9lf"),
    ("secret1ldt92gzs07jx5mqwtrvpev89733jn88gjp0p3w", "secret1y277c499f44nxe7geeaqw8t6gpge68rcpla9lf"),
    ("secret1wjjqxf4gmxgg22926q32cyv4q98wp3fa8erqx2", "secret1y277c499f44nxe7geeaqw8t6gpge68rcpla9lf"),
    ("secret1g2c90l9x8kqdva22v0kp6sp5d55f4cjtw2a3w8", "secret1y277c499f44nxe7geeaqw8t6gpge68rcpla9lf"),
    ("secret1kw8d63a3945r42rgcx5x68f3a6ecfsxtg4zk46", "secret1y277c499f44nxe7geeaqw8t6gpge68rcpla9lf"),
    ("secret1lrlfevkpmwc0kfxl9e59x0er5d8pzh48t68m0e", "secret1y277c499f44nxe7geeaqw8t6gpge68rcpla9lf"),
    ("secret10jcfg560hymw7zmua2rq5h4n2gz4hggmx3sa6h", "secret1y277c499f44nxe7geeaqw8t6gpge68rcpla9lf"),
    ("secret1ctgxt7tqrpjxqcqpz46hcch5cghcvx2kxkn4k7", "secret1y277c499f44nxe7geeaqw8t6gpge68rcpla9lf"),
    ("secret1cqk6t9jjzqelwm0f72n5u2utvljdfgsq047cqu", "secret1y277c499f44nxe7geeaqw8t6gpge68rcpla9lf"),
    ("secret1qptd85mmy0g250xqq76km3804k9ka950435hck", "secret1y277c499f44nxe7geeaqw8t6gpge68rcpla9lf"),
    ("secret1cxr62nxugnxmpde44spjpy5urqgwcfvrtdtnqg", "secret1y277c499f44nxe7geeaqw8t6gpge68rcpla9lf"),
    ("secret1qz57pea4k3ndmjpy6tdjcuq4tzrvjn0aphca0k", "secret1y277c499f44nxe7geeaqw8t6gpge68rcpla9lf"),
    ("secret1gcq0jyy07fkg7q8ekhhw9asgza28w3v65e2qtv", "secret1y277c499f44nxe7geeaqw8t6gpge68rcpla9lf"),
    ("secret1l0f53wjf0x8qdylrcha888gg4r5vrvlhhtpl0g", "secret1y277c499f44nxe7geeaqw8t6gpge68rcpla9lf"),
    ("secret10szrjlyza5u7yqcqvqenf28nmhwph4pad9csyw", "secret1y277c499f44nxe7geeaqw8t6gpge68rcpla9lf"),
    ("secret1grwgyezs60v08683ncs6lep9f09zrzk5jf5d0w", "secret1y277c499f44nxe7geeaqw8t6gpge68rcpla9lf"),
    ("secret1sk5fj35xe0wdagu7dermas9q2u3tl4smvfahpz", "secret1y277c499f44nxe7geeaqw8t6gpge68rcpla9lf"),
    ("secret19nldywqd78rwf0vd7srg7nr76u2sxzekt64pg0", "secret1y277c499f44nxe7geeaqw8t6gpge68rcpla9lf"),
    ("secret10qhn3vtpln9g20syecctufnz6am673jqfr6wxd", "secret1y277c499f44nxe7geeaqw8t6gpge68rcpla9lf"),
    ("secret1sdcqvyv96jk324y9vq9u6nljxs7palu85nh0wj", "secret1y277c499f44nxe7geeaqw8t6gpge68rcpla9lf"),
    ("secret1a65a9xgqrlsgdszqjtxhz069pgsh8h4a83hwt0", "secret1y277c499f44nxe7geeaqw8t6gpge68rcpla9lf"),
    ("secret1kmjr03phgn4v4u0altvvuc53lfmy033wmvddy5", "secret1y277c499f44nxe7geeaqw8t6gpge68rcpla9lf"),
    ("secret1hh9kgm00kfcjc78kefsf29g0fvxnd3f2tt9lrs", "secret1y277c499f44nxe7geeaqw8t6gpge68rcpla9lf"),
    ("secret1gxqsuht45uh2tpqdpru6z6tsw3uyll6md7mzka", "secret1y277c499f44nxe7geeaqw8t6gpge68rcpla9lf"),
    ("secret1zwvfkzeslfcytw6elp4yj20v8vd0l8ws0j9llp", "secret1y277c499f44nxe7geeaqw8t6gpge68rcpla9lf"),
    ("secret1ygauj7gn3f4skj3x09erxhkujftu89s05drhyc", "secret1y277c499f44nxe7geeaqw8t6gpge68rcpla9lf"),
    ("secret12wxpcquw2jx6an6da5nxyz6l7qd955u23ljcjn", "secret1y277c499f44nxe7geeaqw8t6gpge68rcpla9lf"),
    ("secret1lzdv4s665m42ge6ya063xqa7zn3sa7jeqzrccu", "secret1y277c499f44nxe7geeaqw8t6gpge68rcpla9lf"),
    ("secret1v3v08kj7ngca3686hma5k02j8whdzp57qd4a8d", "secret1y277c499f44nxe7geeaqw8t6gpge68rcpla9lf"),
    ("secret1y6w45fwg9ln9pxd6qys8ltjlntu9xa4f2de7sp", "secret1y277c499f44nxe7geeaqw8t6gpge68rcpla9lf"),
    ("secret1tv80wnyljtre8l8mfvdr77tp59mq7wf94sgf3e", "secret1y277c499f44nxe7geeaqw8t6gpge68rcpla9lf"),
    ("secret18dlxp9zu8kgkrr4qvlwdktvfdj9xen3kddc97j", "secret1y277c499f44nxe7geeaqw8t6gpge68rcpla9lf"),
    ("secret1dw4kkuh4h88a6g3spqyu7gkt3v0mqf8rl88cfv", "secret1y277c499f44nxe7geeaqw8t6gpge68rcpla9lf"),
    ("secret1uacy0hjvymf7khrweekmnh5qgr553x0qn3n49h", "secret1y277c499f44nxe7geeaqw8t6gpge68rcpla9lf"),
    ("secret1rrwyqw9rx6rjyp6f6k05uwdemqxx0kltapkvca", "secret1y277c499f44nxe7geeaqw8t6gpge68rcpla9lf"),
    ("secret1c26v64jmesejsauxx5uamaycfe4zt3rth3yg4e", "secret1y277c499f44nxe7geeaqw8t6gpge68rcpla9lf"),
    ("secret17nmgfelgmmzdnzpfgr0g09kfjyk6sn5l9s0m2x", "secret1y277c499f44nxe7geeaqw8t6gpge68rcpla9lf"),
    ("secret1qvgkgtnelmqf2m6kjdaetws2geukdfpyp8t7qz", "secret1y277c499f44nxe7geeaqw8t6gpge68rcpla9lf"),
    ("secret18537ttv4l4k2ea0xp6ay3sv4c243fyjtj2uqz7", "secret1y277c499f44nxe7geeaqw8t6gpge68rcpla9lf"),
    ("secret1l2u35dcx2a4wyx9a6lxn9va6e66z493ycqxtmx", "secret1y277c499f44nxe7geeaqw8t6gpge68rcpla9lf"),
    ("secret16h5sqd79x43wutne8ge3pdz3e3lngw62vy5lmr", "secret1y277c499f44nxe7geeaqw8t6gpge68rcpla9lf"),
    ("secret1f6kw62rzgn3fwc0jfp7nxjks0l45jv3r6tpc0x", "secret1y277c499f44nxe7geeaqw8t6gpge68rcpla9lf"),
    ("secret15a09wzvz3wlem2cfuwnphh46te2pnmk6263c6g", "secret1y277c499f44nxe7geeaqw8t6gpge68rcpla9lf"),
    ("secret1mr0eu9smlq4ac97rhr3np0nl8yq7k6n9gjm9t2", "secret1y277c499f44nxe7geeaqw8t6gpge68rcpla9lf")
]

end SecretNet

namespace SecretNet

/-- `BaseEnv` as used by `contract_operations.rs`: the fields that
`get_verification_params`, `get_og_contract_key` and `.0.block.time` read.
The bech32 human addresses are strings; `og_contract_key` carries the
`Result` of `get_og_contract_key` (its implementation is an external
collaborator, so the env records its outcome). -/
structure BaseEnv where
  sender : String
  contract : String
  block_height : Nat
  block_time : Nat
  sent_funds : List Coin
  og_contract_key : Except EnclaveError Bytes

/-- `SecretMessage` (`contract-engine/src/types.rs`, not under `src/`).
Modelled from the spec: `{nonce: 32 bytes, user_public_key: 32 bytes,
ciphertext: bytes}`. -/
structure SecretMessage where
  nonce : Bytes
  user_public_key : Bytes
  msg : Bytes
  deriving DecidableEq, Repr

/-- Modelled from the spec: `SecretMessage::from_slice` is not under `src/`;
§4.2 says a `SecretMessage` must be at least 64 bytes (32-byte nonce followed
by a 32-byte ephemeral public key), anything shorter failing with a
deserialization error. -/
def SecretMessage.from_slice (bs : Bytes) : Except EnclaveError SecretMessage :=
  if bs.length < 64 then .error .FailedToDeserialize
  else .ok ⟨bs.take 32, (bs.drop 32).take 32, bs.drop 64⟩

/-- Reply-binding parameters (`ReplyParams` from `contract_validation.rs`,
not under `src/`); kept abstract as a byte payload. -/
abbrev ReplyParams := Bytes

/-- `ValidatedMessage` (`contract_validation.rs`, not under `src/`): the
fields destructured by the orchestration code. -/
structure ValidatedMessage where
  validated_msg : Bytes
  reply_params : Option (List ReplyParams)

/-- `ParsedMessage` (`contract-engine/src/types.rs`, not under `src/`): the
fields destructured by `handle`. -/
structure ParsedMessage where
  should_verify_sig_info : Bool
  should_verify_input : Bool
  was_msg_encrypted : Bool
  should_encrypt_output : Bool
  secret_msg : SecretMessage
  decrypted_msg : Bytes
  data_for_validation : Option Bytes

/-- The versioned environment handed to the wasm engine: the source's
`CwEnv` after `into_versioned_env` / `set_msg_sender` / `set_contract_hash`.
Only the fields the embedded code manipulates are kept. -/
structure VersionedEnv where
  base : BaseEnv
  msg_sender : String
  contract_hash : String

/-- `BaseEnv::into_versioned_env` (collaborator): the versioned env starts
with the environment's own message sender. -/
def into_versioned_env (base : BaseEnv) : VersionedEnv :=
  ⟨base, base.sender, ""⟩

/-- `CwEnv::set_msg_sender`. -/
def set_msg_sender (env : VersionedEnv) (sender : String) : VersionedEnv :=
  { env with msg_sender := sender }

/-- `CwEnv::set_contract_hash` (the engine-facing hash is a hex string). -/
def set_contract_hash (env : VersionedEnv) (hash : String) : VersionedEnv :=
  { env with contract_hash := hash }

/-- The wasm3 engine (`crate::wasm3::Engine`, an external collaborator): one
behaviour function per lifecycle entry point plus the cache flush. -/
structure Engine where
  init : VersionedEnv → Bytes → Except EnclaveError Bytes
  handle : VersionedEnv → Bytes → HandleType → Except EnclaveError Bytes
  migrate : VersionedEnv → Bytes → Except EnclaveError Bytes
  query : VersionedEnv → Bytes → Except EnclaveError Bytes
  flush_cache : Except EnclaveError Nat

/-- `ContractOperation` (`cosmwasm_config`, not under `src/`). -/
inductive ContractOperation where
  | Init
  | Handle
  | Migrate
  | Query
  deriving DecidableEq, Repr

/-- All external collaborator functions consumed by
`contract_operations.rs`.  None of their bodies are under `src/`; theorems
quantify over this structure. -/
structure Collab where
  /-- `serde_json::from_slice::<BaseEnv>` (wrapped by `extract_base_env`). -/
  serde_parse_env : Bytes → Option BaseEnv
  /-- `serde_json::from_slice::<EnvWithQD>` (wrapped by `extract_query_depth`). -/
  serde_parse_qd : Bytes → Option Nat
  /-- `serde_json::from_slice::<SigInfo>` (wrapped by `extract_sig_info`). -/
  serde_parse_sig_info : Bytes → Option SigInfo
  /-- `CanonicalAddr::from_human` (bech32 decode, wrapped by `to_canonical`). -/
  from_human : String → Option Bytes
  /-- `HumanAddr::from_canonical` (bech32 encode). -/
  from_canonical : Bytes → Option String
  /-- `calc_contract_hash` / `ContractCode::hash` (sha-256 of the code). -/
  calc_hash : Bytes → Bytes
  /-- Hex rendering of a code hash for the engine-facing env. -/
  encode_hash : Bytes → String
  /-- `generate_contract_key` from `contract_validation.rs`. -/
  generate_contract_key : Bytes → Nat → Bytes → Bytes → Option Bytes →
    Except EnclaveError Bytes
  /-- `generate_admin_proof` from `contract_validation.rs`. -/
  generate_admin_proof : Bytes → Bytes → Bytes
  /-- `generate_contract_key_proof` from `contract_validation.rs`. -/
  generate_contract_key_proof : Bytes → Bytes → Bytes → Bytes → Bytes
  /-- `verify_params` from `contract_validation.rs` (§4.3 policy). -/
  verify_params : SigInfo → List Coin → Bytes → String → SecretMessage →
    Bool → Bool → VerifyParamsType → Option Bytes → Option Bytes →
    Except EnclaveError Unit
  /-- `validate_contract_key` from `contract_validation.rs`. -/
  validate_contract_key : BaseEnv → Bytes → Bytes → Except EnclaveError Unit
  /-- `SecretMessage::decrypt` (channel crypto). -/
  decrypt : SecretMessage → Except EnclaveError Bytes
  /-- `validate_msg` from `contract_validation.rs` (§4.2 cross-validation). -/
  validate_msg : Bytes → Bytes → Bytes → Option Bytes → Option HandleType →
    Except EnclaveError ValidatedMessage
  /-- `parse_message` from `message.rs`. -/
  parse_message : Bytes → HandleType → Except EnclaveError ParsedMessage
  /-- `is_ibc_msg` from `message.rs`. -/
  is_ibc_msg : HandleType → Bool
  /-- `start_engine` / `wasm3::Engine::new`: code, contract key, operation,
  query depth, nonce, user public key, timestamp. -/
  start_engine : Bytes → Bytes → ContractOperation → Nat → Bytes → Bytes →
    Nat → Except EnclaveError Engine
  /-- `post_process_output` from `io.rs`: output, secret message, canonical
  contract address, contract hash, reply params, canonical sender,
  is-query flag, is-ibc flag. -/
  post_process_output : Bytes → SecretMessage → Bytes → String →
    Option (List ReplyParams) → Bytes → Bool → Bool → Except EnclaveError Bytes
  /-- `manipulate_callback_sig_for_plaintext` from `io.rs`. -/
  manipulate_callback_sig_for_plaintext : Bytes → Bytes →
    Except EnclaveError Bytes
  /-- `set_all_logs_to_plaintext` from `io.rs`. -/
  set_all_logs_to_plaintext : Bytes → Bytes
  /-- `finalize_raw_output` from `io.rs`. -/
  finalize_raw_output : Bytes → Bool → Bool → Bool → Except EnclaveError Bytes

/-- `extract_base_env` (`contract_operations.rs` lines 1280-1294): serde
failure becomes `FailedToDeserialize`. -/
def extract_base_env (c : Collab) (env : Bytes) : Except EnclaveError BaseEnv :=
  match c.serde_parse_env env with
  | none => .error .FailedToDeserialize
  | some base => .ok base

/-- `extract_query_depth` (`contract_operations.rs` lines 1306-1320). -/
def extract_query_depth (c : Collab) (env : Bytes) : Except EnclaveError Nat :=
  match c.serde_parse_qd env with
  | none => .error .FailedToDeserialize
  | some qd => .ok qd

/-- `extract_sig_info` (`contract_operations.rs` lines 1172-1181). -/
def extract_sig_info (c : Collab) (sig_info : Bytes) :
    Except EnclaveError SigInfo :=
  match c.serde_parse_sig_info sig_info with
  | none => .error .FailedToDeserialize
  | some si => .ok si

/-- `to_canonical` (`contract_operations.rs` lines 246-254): bech32 decoding
failure becomes `FailedToDeserialize`. -/
def to_canonical (c : Collab) (contract_address : String) :
    Except EnclaveError Bytes :=
  match c.from_human contract_address with
  | none => .error .FailedToDeserialize
  | some canon => .ok canon

/-- The all-zero admin-proof sentinel `[0; enclave_crypto::HASH_SIZE]`
(`HASH_SIZE = 32`). -/
def zero_sentinel : Bytes := List.replicate 32 0

/-- `is_hardcoded_contract_admin` (`contract_operations.rs` lines 666-696):
true only when the proof is exactly the zero sentinel, both addresses
humanize, and the (contract, admin) pair is in the hardcoded table. -/
def is_hardcoded_contract_admin (c : Collab) (contract admin : Bytes)
    (admin_proof : Bytes) : Bool :=
  if admin_proof ≠ zero_sentinel then false
  else
    match c.from_canonical contract with
    | none => false
    | some contract_h =>
      match c.from_canonical admin with
      | none => false
      | some admin_h =>
        HARDCODED_CONTRACT_ADMINS.lookup contract_h == some admin_h

/-- The admin authorization step of `migrate` (`contract_operations.rs`
lines 759-774): hardcoded override first, otherwise the caller's proof must
equal the proof derived for the transaction sender. -/
def migrate_admin_auth (c : Collab) (contract admin : Bytes)
    (admin_proof : Bytes) (sender : Bytes) (og_contract_key : Bytes) :
    Except EnclaveError Unit :=
  if is_hardcoded_contract_admin c contract admin admin_proof then
    .ok ()
  else
    let sender_admin_proof := c.generate_admin_proof sender og_contract_key
    if admin_proof ≠ sender_admin_proof then
      .error .ValidationFailure
    else
      .ok ()

/-- The admin authorization step of `update_admin` (`contract_operations.rs`
lines 918-937): a hardcoded-table match is rejected outright, then the
contract key is read from the env and the caller's proof must equal the
proof derived for the transaction sender.  Returns the contract key. -/
def update_admin_auth (c : Collab) (contract current_admin : Bytes)
    (current_admin_proof : Bytes) (sender : Bytes)
    (og : Except EnclaveError Bytes) : Except EnclaveError Bytes := do
  if is_hardcoded_contract_admin c contract current_admin current_admin_proof then
    throw .ValidationFailure
  let og_contract_key ← og
  let sender_admin_proof := c.generate_admin_proof sender og_contract_key
  if sender_admin_proof ≠ current_admin_proof then
    throw .ValidationFailure
  return og_contract_key

end SecretNet

namespace SecretNet

/-- `InitSuccess` (`external/results.rs`, fields as consumed here). -/
structure InitSuccess where
  output : Bytes
  contract_key : Bytes
  admin_proof : Bytes

/-- `MigrateSuccess`. -/
structure MigrateSuccess where
  output : Bytes
  new_contract_key : Bytes
  new_contract_key_proof : Bytes

/-- `UpdateAdminSuccess`. -/
structure UpdateAdminSuccess where
  new_admin_proof : Bytes

/-- `HandleSuccess`. -/
structure HandleSuccess where
  output : Bytes

/-- `QuerySuccess`. -/
structure QuerySuccess where
  output : Bytes

/-- The cache flush at the end of an engine run:
`engine.flush_cache().map_err(|_| EnclaveError::FailedFunctionCall)`. -/
def flush_engine (engine : Engine) : Except EnclaveError Nat :=
  match engine.flush_cache with
  | .error _ => .error .FailedFunctionCall
  | .ok gas => .ok gas

/-- `init` (`contract_operations.rs` lines 64-227), with the gas-metering
out-parameters elided (no claim concerns gas).  The `light-client-validation`
and `random` features are compiled out, as in the default build. -/
def init (c : Collab) (contract env msg sig_info admin : Bytes) :
    Except EnclaveError InitSuccess := do
  let contract_hash := c.calc_hash contract
  let base_env ← extract_base_env c env
  let query_depth ← extract_query_depth c env
  let canonical_contract_address ← to_canonical c base_env.contract
  let canonical_sender_address ← to_canonical c base_env.sender
  let canonical_admin_address := admin
  let og_contract_key ← c.generate_contract_key canonical_sender_address
    base_env.block_height contract_hash canonical_contract_address none
  let parsed_sig_info ← extract_sig_info c sig_info
  let secret_msg ← SecretMessage.from_slice msg
  let _ ← c.verify_params parsed_sig_info base_env.sent_funds
    canonical_sender_address base_env.contract secret_msg true true
    .Init (some canonical_admin_address) none
  let decrypted_msg ← c.decrypt secret_msg
  let vm ← c.validate_msg canonical_contract_address decrypted_msg
    contract_hash none none
  let engine ← c.start_engine contract og_contract_key .Init query_depth
    secret_msg.nonce secret_msg.user_public_key base_env.block_time
  let versioned_env :=
    set_contract_hash (into_versioned_env base_env) (c.encode_hash contract_hash)
  let output ← engine.init versioned_env vm.validated_msg
  let _ ← flush_engine engine
  let output ← c.post_process_output output secret_msg
    canonical_contract_address versioned_env.contract_hash vm.reply_params
    canonical_sender_address false false
  let admin_proof := c.generate_admin_proof canonical_admin_address og_contract_key
  return ⟨output, og_contract_key, admin_proof⟩

/-- `migrate` (`contract_operations.rs` lines 714-894); the admin
authorization step of lines 759-774 is the `migrate_admin_auth` definition
above. -/
def migrate (c : Collab) (contract env msg sig_info admin admin_proof : Bytes) :
    Except EnclaveError MigrateSuccess := do
  let contract_hash := c.calc_hash contract
  let base_env ← extract_base_env c env
  let query_depth ← extract_query_depth c env
  let canonical_contract_address ← to_canonical c base_env.contract
  let canonical_sender_address ← to_canonical c base_env.sender
  let canonical_admin_address := admin
  let og_contract_key ← base_env.og_contract_key
  let _ ← migrate_admin_auth c canonical_contract_address
    canonical_admin_address admin_proof canonical_sender_address og_contract_key
  let parsed_sig_info ← extract_sig_info c sig_info
  let secret_msg ← SecretMessage.from_slice msg
  let _ ← c.verify_params parsed_sig_info base_env.sent_funds
    canonical_sender_address base_env.contract secret_msg true true
    .Migrate (some canonical_admin_address) none
  let decrypted_msg ← c.decrypt secret_msg
  let vm ← c.validate_msg canonical_contract_address decrypted_msg
    contract_hash none none
  let engine ← c.start_engine contract og_contract_key .Migrate query_depth
    secret_msg.nonce secret_msg.user_public_key base_env.block_time
  let versioned_env :=
    set_contract_hash (into_versioned_env base_env) (c.encode_hash contract_hash)
  let new_contract_key ← c.generate_contract_key canonical_sender_address
    base_env.block_height contract_hash canonical_contract_address
    (some og_contract_key)
  let output ← engine.migrate versioned_env vm.validated_msg
  let _ ← flush_engine engine
  let output ← c.post_process_output output secret_msg
    canonical_contract_address versioned_env.contract_hash vm.reply_params
    canonical_sender_address false false
  let new_contract_key_proof := c.generate_contract_key_proof
    canonical_contract_address contract_hash og_contract_key new_contract_key
  return ⟨output, new_contract_key, new_contract_key_proof⟩

/-- `update_admin` (`contract_operations.rs` lines 896-963); the admin
authorization step of lines 918-937 is the `update_admin_auth` definition
above.  The placeholder `SecretMessage` handed to `verify_params` is all
zeroes with an empty body, as in the source. -/
def update_admin (c : Collab) (env sig_info current_admin current_admin_proof
    new_admin : Bytes) : Except EnclaveError UpdateAdminSuccess := do
  let base_env ← extract_base_env c env
  let canonical_sender_address ← to_canonical c base_env.sender
  let canonical_current_admin_address := current_admin
  let canonical_new_admin_address := new_admin
  let canonical_contract_address ← to_canonical c base_env.contract
  let og_contract_key ← update_admin_auth c canonical_contract_address
    canonical_current_admin_address current_admin_proof
    canonical_sender_address base_env.og_contract_key
  let parsed_sig_info ← extract_sig_info c sig_info
  let _ ← c.verify_params parsed_sig_info base_env.sent_funds
    canonical_sender_address base_env.contract
    ⟨List.replicate 32 0, List.replicate 32 0, []⟩ true true
    .UpdateAdmin (some canonical_current_admin_address)
    (some canonical_new_admin_address)
  let new_admin_proof := c.generate_admin_proof canonical_new_admin_address
    og_contract_key
  return ⟨new_admin_proof⟩

/-- The sender policy of `handle` (`contract_operations.rs` lines 1080-1097):
`Execute` keeps the verified `msg.sender`; `Reply`, the six IBC variants and
the three wasm-hook variants overwrite the sender with the null (empty)
address. -/
def apply_sender_policy (ht : HandleType) (env : VersionedEnv) : VersionedEnv :=
  match ht with
  | .HANDLE_TYPE_EXECUTE => env
  | .HANDLE_TYPE_REPLY
  | .HANDLE_TYPE_IBC_CHANNEL_OPEN
  | .HANDLE_TYPE_IBC_CHANNEL_CONNECT
  | .HANDLE_TYPE_IBC_CHANNEL_CLOSE
  | .HANDLE_TYPE_IBC_PACKET_RECEIVE
  | .HANDLE_TYPE_IBC_PACKET_ACK
  | .HANDLE_TYPE_IBC_PACKET_TIMEOUT
  | .HANDLE_TYPE_IBC_WASM_HOOKS_INCOMING_TRANSFER
  | .HANDLE_TYPE_IBC_WASM_HOOKS_OUTGOING_TRANSFER_ACK
  | .HANDLE_TYPE_IBC_WASM_HOOKS_OUTGOING_TRANSFER_TIMEOUT =>
    set_msg_sender env ""

/-- The versioned environment `handle` passes to `engine.handle`
(`contract_operations.rs` lines 1072-1110): `into_versioned_env`, then the
sender policy, then `set_contract_hash`. -/
def handle_env (c : Collab) (ht : HandleType) (base : BaseEnv)
    (contract_hash : Bytes) : VersionedEnv :=
  set_contract_hash (apply_sender_policy ht (into_versioned_env base))
    (c.encode_hash contract_hash)

/-- `handle` (`contract_operations.rs` lines 965-1150).  Note the sender
canonicalization fallback of lines 1017-1020: a sender that fails bech32
decoding is replaced by the empty canonical address instead of failing. -/
def handle (c : Collab) (contract env msg sig_info : Bytes)
    (handle_type : Nat) : Except EnclaveError HandleSuccess := do
  let contract_hash := c.calc_hash contract
  let base_env ← extract_base_env c env
  let query_depth ← extract_query_depth c env
  let canonical_contract_address ← to_canonical c base_env.contract
  let _ ← c.validate_contract_key base_env canonical_contract_address contract
  let parsed_sig_info ← extract_sig_info c sig_info
  let parsed_handle_type ← HandleType.try_from handle_type
  let pm ← c.parse_message msg parsed_handle_type
  let canonical_sender_address :=
    match c.from_human base_env.sender with
    | some can => can
    | none => []
  let _ ← c.verify_params parsed_sig_info base_env.sent_funds
    canonical_sender_address base_env.contract pm.secret_msg
    pm.should_verify_sig_info pm.should_verify_input
    (.HandleType parsed_handle_type) none none
  let (validated_msg, reply_params) ←
    if pm.was_msg_encrypted then do
      let x ← c.validate_msg canonical_contract_address pm.decrypted_msg
        contract_hash pm.data_for_validation (some parsed_handle_type)
      pure (x.validated_msg, x.reply_params)
    else
      pure (pm.decrypted_msg, (none : Option (List ReplyParams)))
  let og_contract_key ← base_env.og_contract_key
  let engine ← c.start_engine contract og_contract_key .Handle query_depth
    pm.secret_msg.nonce pm.secret_msg.user_public_key base_env.block_time
  let versioned_env := handle_env c parsed_handle_type base_env contract_hash
  let output ← engine.handle versioned_env validated_msg parsed_handle_type
  let _ ← flush_engine engine
  let output ←
    if pm.should_encrypt_output then
      c.post_process_output output pm.secret_msg canonical_contract_address
        versioned_env.contract_hash reply_params canonical_sender_address
        false (c.is_ibc_msg parsed_handle_type)
    else do
      let raw_output ← c.manipulate_callback_sig_for_plaintext
        canonical_contract_address output
      let raw_output := c.set_all_logs_to_plaintext raw_output
      c.finalize_raw_output raw_output false
        (c.is_ibc_msg parsed_handle_type) false
  return ⟨output⟩

/-- `query` (`contract_operations.rs` lines 1183-1252).  The final
`post_process_output` call receives an empty canonical contract address, an
empty contract hash string, no reply params and an empty sender, with the
is-query flag set. -/
def query (c : Collab) (contract env msg : Bytes) :
    Except EnclaveError QuerySuccess := do
  let contract_hash := c.calc_hash contract
  let base_env ← extract_base_env c env
  let query_depth ← extract_query_depth c env
  let canonical_contract_address ← to_canonical c base_env.contract
  let _ ← c.validate_contract_key base_env canonical_contract_address contract
  let secret_msg ← SecretMessage.from_slice msg
  let decrypted_msg ← c.decrypt secret_msg
  let vm ← c.validate_msg canonical_contract_address decrypted_msg
    contract_hash none none
  let og_contract_key ← base_env.og_contract_key
  let engine ← c.start_engine contract og_contract_key .Query query_depth
    secret_msg.nonce secret_msg.user_public_key base_env.block_time
  let versioned_env :=
    set_contract_hash (into_versioned_env base_env) (c.encode_hash contract_hash)
  let output ← engine.query versioned_env vm.validated_msg
  let output ← c.post_process_output output secret_msg [] "" none [] true false
  return ⟨output⟩

end SecretNet

namespace SecretNet

/-- Modelled from the spec: `derive_contract_key`/`generate_contract_key`
lives in `contract_validation.rs`, which is not under `src/`.  §4.1 describes
it as a deterministic, collision-resistant keyed hash of
`(sender, block_height, code_hash, contract_address, predecessor)`; we model
the hash as an injective tagged encoding of those inputs. -/
def spec_generate_contract_key (sender : Bytes) (height : Nat)
    (code_hash contract : Bytes) (pred : Option Bytes) : Bytes :=
  0 :: sender.length :: sender ++ height :: code_hash.length :: code_hash ++
    contract.length :: contract ++
    (match pred with
     | none => [0]
     | some k => 1 :: k.length :: k)

/-- Modelled from the spec: `derive_admin_proof`/`generate_admin_proof` lives
in `contract_validation.rs`, not under `src/`.  §3 describes it as a one-way
commitment binding an address to a contract key, with distinct addresses
giving distinct proofs; we model it as an injective tagged encoding whose
first byte is 1, so it is never the all-zero sentinel. -/
def spec_generate_admin_proof (addr key : Bytes) : Bytes :=
  1 :: addr.length :: addr ++ key

/-- Modelled from the spec: `derive_migration_proof`/
`generate_contract_key_proof` lives in `contract_validation.rs`, not under
`src/`.  §4.1 describes it as a one-way commitment over
`(contract_address, code_hash, old_key, new_key)`. -/
def spec_generate_contract_key_proof (contract code_hash old_key new_key :
    Bytes) : Bytes :=
  2 :: contract.length :: contract ++ code_hash.length :: code_hash ++
    old_key.length :: old_key ++ new_key

/-- A wasm engine whose every entry point echoes the validated message and
whose cache flush succeeds; used to instantiate witness runs. -/
def echoEngine : Engine where
  init := fun _ m => .ok m
  handle := fun _ m _ => .ok m
  migrate := fun _ m => .ok m
  query := fun _ m => .ok m
  flush_cache := .ok 0

/-- A fixed parsed environment for witness runs: sender `"s"`, contract
`"k"`, height 7, time 9, no funds, current contract key `[5]`. -/
def baseW : BaseEnv where
  sender := "s"
  contract := "k"
  block_height := 7
  block_time := 9
  sent_funds := []
  og_contract_key := .ok [5]

/-- A trivially succeeding `SigInfo` for witness runs. -/
def sigW : SigInfo := ⟨[], [], .SIGN_MODE_DIRECT, [], [], [], none⟩

/-- A collaborator instantiation on which every pipeline stage succeeds:
serde returns `baseW`, bech32 maps `"s"` to `[2]` and `"k"` to `[7]`, the
crypto derivations are the spec-modelled commitments, decryption returns the
ciphertext, cross-validation and signature verification accept, and the
engine echoes.  Used for witnesses of hypothesis-bearing theorems. -/
def okCollab : Collab where
  serde_parse_env := fun _ => some baseW
  serde_parse_qd := fun _ => some 0
  serde_parse_sig_info := fun _ => some sigW
  from_human := fun s => if s = "s" then some [2] else
    if s = "k" then some [7] else none
  from_canonical := fun _ => none
  calc_hash := fun _ => [8]
  encode_hash := fun _ => "h"
  generate_contract_key := fun s h ch ca p =>
    .ok (spec_generate_contract_key s h ch ca p)
  generate_admin_proof := spec_generate_admin_proof
  generate_contract_key_proof := spec_generate_contract_key_proof
  verify_params := fun _ _ _ _ _ _ _ _ _ _ => .ok ()
  validate_contract_key := fun _ _ _ => .ok ()
  decrypt := fun m => .ok m.msg
  validate_msg := fun _ d _ _ _ => .ok ⟨d, none⟩
  parse_message := fun m _ => .ok ⟨false, false, false, false,
    ⟨List.replicate 32 0, List.replicate 32 0, []⟩, m, none⟩
  is_ibc_msg := fun _ => false
  start_engine := fun _ _ _ _ _ _ _ => .ok echoEngine
  post_process_output := fun o _ _ _ _ _ _ _ => .ok o
  manipulate_callback_sig_for_plaintext := fun _ o => .ok o
  set_all_logs_to_plaintext := fun o => o
  finalize_raw_output := fun o _ _ _ => .ok o

end SecretNet

namespace SecretNet

/-- Claim C7: `HandleType::try_from` maps the byte values 0 through 10 to the
eleven handle kinds in declaration order (`Execute`, `Reply`, then the nine
IBC/hook variants) and fails with the unrecognized-handle-type error
(`EnclaveError::FailedToDeserialize`, the spec's `UnsupportedOperation`
kind) on every other byte value. -/
theorem claim_C7_handle_type_closed :
    (HandleType.try_from 0 = .ok .HANDLE_TYPE_EXECUTE ∧
     HandleType.try_from 1 = .ok .HANDLE_TYPE_REPLY ∧
     HandleType.try_from 2 = .ok .HANDLE_TYPE_IBC_CHANNEL_OPEN ∧
     HandleType.try_from 3 = .ok .HANDLE_TYPE_IBC_CHANNEL_CONNECT ∧
     HandleType.try_from 4 = .ok .HANDLE_TYPE_IBC_CHANNEL_CLOSE ∧
     HandleType.try_from 5 = .ok .HANDLE_TYPE_IBC_PACKET_RECEIVE ∧
     HandleType.try_from 6 = .ok .HANDLE_TYPE_IBC_PACKET_ACK ∧
     HandleType.try_from 7 = .ok .HANDLE_TYPE_IBC_PACKET_TIMEOUT ∧
     HandleType.try_from 8 = .ok .HANDLE_TYPE_IBC_WASM_HOOKS_INCOMING_TRANSFER ∧
     HandleType.try_from 9 = .ok .HANDLE_TYPE_IBC_WASM_HOOKS_OUTGOING_TRANSFER_ACK ∧
     HandleType.try_from 10 =
       .ok .HANDLE_TYPE_IBC_WASM_HOOKS_OUTGOING_TRANSFER_TIMEOUT) ∧
    ∀ b : Nat, 10 < b →
      HandleType.try_from b = .error .FailedToDeserialize := by
  refine ⟨⟨rfl, rfl, rfl, rfl, rfl, rfl, rfl, rfl, rfl, rfl, rfl⟩, ?_⟩
  intro b hb
  have hrw : b = (b - 11) + 11 := by omega
  rw [hrw]
  rfl

/-- Witness for C7 at the concrete unrecognized byte 11. -/
theorem claim_C7_witness :
    10 < 11 ∧ HandleType.try_from 11 = .error .FailedToDeserialize :=
  ⟨by decide, claim_C7_handle_type_closed.2 11 (by decide)⟩

/-- Claim C10: for every `type_url` outside the eight recognized ones,
`DirectSdkMsg::from_bytes` returns `Ok(DirectSdkMsg::Other)` regardless of
the byte payload and of the per-variant parsers. -/
theorem claim_C10_unknown_type_url (p : DirectParsers) (type_url : String)
    (bytes : Bytes) (h : type_url ∉ recognizedTypeUrls) :
    DirectSdkMsg.from_bytes p type_url bytes = .ok .Other := by
  simp only [recognizedTypeUrls, List.mem_cons, List.not_mem_nil, or_false,
    not_or] at h
  obtain ⟨h1, h2, h3, h4, h5, h6, h7, h8⟩ := h
  simp [DirectSdkMsg.from_bytes, h1, h2, h3, h4, h5, h6, h7, h8]

/-- Parsers that ignore their input; used to instantiate the C10 witness. -/
def trivialParsers : DirectParsers :=
  ⟨fun _ => .ok .Other, fun _ => .ok .Other, fun _ => .ok .Other,
   fun _ => .ok .Other, fun _ => .ok .Other, fun _ => .ok .Other,
   fun _ => .ok .Other, fun _ => .ok .Other⟩

/-- Witness for C10 at a concrete unrecognized url and payload. -/
theorem claim_C10_witness :
    "/cosmos.bank.v1beta1.MsgSend" ∉ recognizedTypeUrls ∧
    DirectSdkMsg.from_bytes trivialParsers "/cosmos.bank.v1beta1.MsgSend"
      [0, 1, 2] = .ok .Other :=
  ⟨by decide, claim_C10_unknown_type_url trivialParsers _ _ (by decide)⟩

/-- Claim C4: the environment handed to the execution engine by `handle`
keeps the environment's own message sender for `Execute`, and carries the
null (empty) sender for `Reply` and each of the nine IBC/hook variants. -/
theorem claim_C4_sender_nulling (c : Collab) (base : BaseEnv) (hash : Bytes) :
    (handle_env c .HANDLE_TYPE_EXECUTE base hash).msg_sender = base.sender ∧
    (handle_env c .HANDLE_TYPE_REPLY base hash).msg_sender = "" ∧
    (handle_env c .HANDLE_TYPE_IBC_CHANNEL_OPEN base hash).msg_sender = "" ∧
    (handle_env c .HANDLE_TYPE_IBC_CHANNEL_CONNECT base hash).msg_sender = "" ∧
    (handle_env c .HANDLE_TYPE_IBC_CHANNEL_CLOSE base hash).msg_sender = "" ∧
    (handle_env c .HANDLE_TYPE_IBC_PACKET_RECEIVE base hash).msg_sender = "" ∧
    (handle_env c .HANDLE_TYPE_IBC_PACKET_ACK base hash).msg_sender = "" ∧
    (handle_env c .HANDLE_TYPE_IBC_PACKET_TIMEOUT base hash).msg_sender = "" ∧
    (handle_env c .HANDLE_TYPE_IBC_WASM_HOOKS_INCOMING_TRANSFER base
      hash).msg_sender = "" ∧
    (handle_env c .HANDLE_TYPE_IBC_WASM_HOOKS_OUTGOING_TRANSFER_ACK base
      hash).msg_sender = "" ∧
    (handle_env c .HANDLE_TYPE_IBC_WASM_HOOKS_OUTGOING_TRANSFER_TIMEOUT base
      hash).msg_sender = "" :=
  ⟨rfl, rfl, rfl, rfl, rfl, rfl, rfl, rfl, rfl, rfl, rfl⟩

end SecretNet

namespace SecretNet

/-- Claim C1: in `migrate`, when the caller-supplied proof is exactly the
zero sentinel and the humanized (contract, admin) pair is in the hardcoded
table, authorization succeeds — for every behaviour of the proof-derivation
collaborator, i.e. with no derived proof at all; and when the proof is
non-zero the table is ignored: authorization succeeds exactly when the proof
equals the derived proof. -/
theorem claim_C1_admin_precedence (c : Collab)
    (contract admin sender og_key proof : Bytes) :
    (∀ contract_h admin_h, proof = zero_sentinel →
       c.from_canonical contract = some contract_h →
       c.from_canonical admin = some admin_h →
       HARDCODED_CONTRACT_ADMINS.lookup contract_h = some admin_h →
       migrate_admin_auth c contract admin proof sender og_key = .ok ()) ∧
    (proof ≠ zero_sentinel →
       (migrate_admin_auth c contract admin proof sender og_key = .ok () ↔
        proof = c.generate_admin_proof sender og_key)) := by
  constructor
  · intro contract_h admin_h hz hc ha hlook
    simp [migrate_admin_auth, is_hardcoded_contract_admin, hz, hc, ha, hlook]
  · intro hnz
    have hhard : is_hardcoded_contract_admin c contract admin proof = false := by
      simp [is_hardcoded_contract_admin, hnz]
    by_cases hp : proof = c.generate_admin_proof sender og_key
    · simp [migrate_admin_auth, hhard, hp]
    · simp [migrate_admin_auth, hhard, hp]

/-- A bech32 encoder for the C1 witness: canonical `[1]` is the first
contract of the hardcoded table and canonical `[2]` its admin. -/
def humanizeW : Bytes → Option String := fun b =>
  if b = [1] ∨ b = [7] then
    some "secret1k0jntykt7e4g3y88ltc60czgjuqdy4c9e8fzek"
  else if b = [2] then some "secret1lrnpnp6ltfxwuhjeaz97htnajh096q7y72rp5d"
  else none

/-- `okCollab` with the witness bech32 encoder plugged in. -/
def tableCollab : Collab :=
  { okCollab with from_canonical := humanizeW }

/-- Witness for C1: the zero-sentinel proof authorizes the first hardcoded
table pair, and a non-zero derived proof authorizes via the derived path. -/
theorem claim_C1_witness :
    migrate_admin_auth tableCollab [1] [2] zero_sentinel [5] [6] = .ok () ∧
    migrate_admin_auth tableCollab [9] [9]
      (spec_generate_admin_proof [5] [6]) [5] [6] = .ok () := by
  constructor
  · exact (claim_C1_admin_precedence tableCollab [1] [2] [5] [6]
      zero_sentinel).1
      "secret1k0jntykt7e4g3y88ltc60czgjuqdy4c9e8fzek"
      "secret1lrnpnp6ltfxwuhjeaz97htnajh096q7y72rp5d"
      rfl rfl rfl (by decide)
  · exact ((claim_C1_admin_precedence tableCollab [9] [9] [5] [6]
      (spec_generate_admin_proof [5] [6])).2 (by decide)).mpr rfl

/-- A collaborator instantiation for the C2 counterexample: bech32 encoding
always fails (the addresses involved are not hardcoded-table entries) and
the proof derivation is the spec-modelled commitment. -/
def cexCollab : Collab :=
  { okCollab with from_canonical := fun _ => none }

/-- Counterexample to claim C2 as stated: the claimed admin is `[1]`, the
transaction sender is `[2]`, the current contract key is `[3]`, the
hardcoded override does not apply, and the caller supplies exactly
`derive_admin_proof(claimed_admin, key)` — yet `migrate`'s authorization
fails with `ValidationFailure`, because the code derives the comparison
proof from the sender address, not from the claimed admin address. -/
theorem claim_C2_counterexample :
    is_hardcoded_contract_admin cexCollab [9] [1]
      (spec_generate_admin_proof [1] [3]) = false ∧
    cexCollab.generate_admin_proof [1] [3] =
      spec_generate_admin_proof [1] [3] ∧
    migrate_admin_auth cexCollab [9] [1]
      (spec_generate_admin_proof [1] [3]) [2] [3] =
      .error .ValidationFailure := by
  refine ⟨by decide, rfl, by rfl⟩

/-- Claim C2 as amended: where the hardcoded override does not apply,
authorization in `migrate` and in `update_admin` succeeds if and only if the
caller-supplied proof equals the proof derived from the transaction sender
address (who must therefore be the current admin) and the current contract
key; any other value fails with `ValidationFailure`. -/
theorem claim_C2_derived_proof (c : Collab)
    (contract admin cur_admin sender og_key proof : Bytes) :
    (is_hardcoded_contract_admin c contract admin proof = false →
       (migrate_admin_auth c contract admin proof sender og_key = .ok () ↔
        proof = c.generate_admin_proof sender og_key) ∧
       (proof ≠ c.generate_admin_proof sender og_key →
        migrate_admin_auth c contract admin proof sender og_key =
          .error .ValidationFailure)) ∧
    (is_hardcoded_contract_admin c contract cur_admin proof = false →
       (update_admin_auth c contract cur_admin proof sender (.ok og_key) =
          .ok og_key ↔
        proof = c.generate_admin_proof sender og_key) ∧
       (proof ≠ c.generate_admin_proof sender og_key →
        update_admin_auth c contract cur_admin proof sender (.ok og_key) =
          .error .ValidationFailure)) := by
  constructor
  · intro hhard
    by_cases hp : proof = c.generate_admin_proof sender og_key
    · simp [migrate_admin_auth, hhard, hp]
    · constructor
      · simp [migrate_admin_auth, hhard, hp]
      · intro _
        simp [migrate_admin_auth, hhard, hp]
  · intro hhard
    by_cases hp : proof = c.generate_admin_proof sender og_key
    · subst hp
      simp [update_admin_auth, hhard, bind, Except.bind, throw, throwThe,
        MonadExcept.throw, pure, Except.pure]
    · have hp2 : c.generate_admin_proof sender og_key ≠ proof :=
        fun h => hp h.symm
      constructor
      · simp [update_admin_auth, hhard, hp, hp2, bind, Except.bind, throw,
          throwThe, MonadExcept.throw, pure, Except.pure]
      · intro _
        simp [update_admin_auth, hhard, hp2, bind, Except.bind, throw,
          throwThe, MonadExcept.throw, pure, Except.pure]

/-- Witness for the amended C2: with the spec-modelled derivation, the
sender-derived proof authorizes both `migrate` and `update_admin`, and a
different proof is rejected with `ValidationFailure`. -/
theorem claim_C2_witness :
    migrate_admin_auth cexCollab [9] [1]
      (spec_generate_admin_proof [2] [3]) [2] [3] = .ok () ∧
    update_admin_auth cexCollab [9] [1]
      (spec_generate_admin_proof [2] [3]) [2] (.ok [3]) = .ok [3] ∧
    update_admin_auth cexCollab [9] [1]
      (spec_generate_admin_proof [1] [3]) [2] (.ok [3]) =
      .error .ValidationFailure := by
  refine ⟨?_, ?_, ?_⟩
  · exact ((claim_C2_derived_proof cexCollab [9] [1] [1] [2] [3]
      (spec_generate_admin_proof [2] [3])).1 (by decide)).1.mpr rfl
  · exact ((claim_C2_derived_proof cexCollab [9] [1] [1] [2] [3]
      (spec_generate_admin_proof [2] [3])).2 (by decide)).1.mpr rfl
  · exact ((claim_C2_derived_proof cexCollab [9] [1] [1] [2] [3]
      (spec_generate_admin_proof [1] [3])).2 (by decide)).2 (by decide)

end SecretNet

namespace SecretNet

/-- Claim C3: an `update_admin` call whose `current_admin_proof` is the zero
sentinel and whose humanized (contract, current admin) pair is in the
hardcoded table fails with `ValidationFailure` — hardcoded-override
contracts can never change their admin via `update_admin`. -/
theorem claim_C3_update_admin_hardcoded (c : Collab)
    (env sig_info current_admin current_admin_proof new_admin : Bytes)
    (base : BaseEnv) (csender ccontract : Bytes) (contract_h admin_h : String)
    (henv : c.serde_parse_env env = some base)
    (hs : c.from_human base.sender = some csender)
    (hc : c.from_human base.contract = some ccontract)
    (hz : current_admin_proof = zero_sentinel)
    (hch : c.from_canonical ccontract = some contract_h)
    (hah : c.from_canonical current_admin = some admin_h)
    (hlook : HARDCODED_CONTRACT_ADMINS.lookup contract_h = some admin_h) :
    update_admin c env sig_info current_admin current_admin_proof new_admin =
      .error .ValidationFailure := by
  have hhard : is_hardcoded_contract_admin c ccontract current_admin
      current_admin_proof = true := by
    simp [is_hardcoded_contract_admin, hz, hch, hah, hlook]
  simp [update_admin, extract_base_env, to_canonical, update_admin_auth,
    henv, hs, hc, hhard, bind, Except.bind, throw, throwThe,
    MonadExcept.throw]

/-- Witness for C3: `tableCollab` humanizes the canonical contract `[1]` and
admin `[2]` to the first hardcoded table pair, and `update_admin` rejects
the zero-sentinel proof. -/
theorem claim_C3_witness :
    update_admin tableCollab [0] [0] [2] zero_sentinel [4] =
      .error .ValidationFailure :=
  claim_C3_update_admin_hardcoded tableCollab [0] [0] [2] zero_sentinel [4]
    baseW [2] [7] "secret1k0jntykt7e4g3y88ltc60czgjuqdy4c9e8fzek"
    "secret1lrnpnp6ltfxwuhjeaz97htnajh096q7y72rp5d"
    rfl rfl rfl rfl rfl rfl (by decide)

end SecretNet

namespace SecretNet

/-- Claim C6: every successful `init` returns the contract key derived with
predecessor `None` from the transaction sender, the block height, the code
hash and the contract address, together with the admin proof derived from
the supplied admin address and that fresh key. -/
theorem claim_C6_init_fresh_key (c : Collab)
    (contract env msg sig_info admin : Bytes) (base : BaseEnv)
    (s : InitSuccess) (csender ccontract : Bytes)
    (henv : c.serde_parse_env env = some base)
    (hc : c.from_human base.contract = some ccontract)
    (hs : c.from_human base.sender = some csender)
    (hok : init c contract env msg sig_info admin = .ok s) :
    c.generate_contract_key csender base.block_height (c.calc_hash contract)
      ccontract none = .ok s.contract_key ∧
    s.admin_proof = c.generate_admin_proof admin s.contract_key := by
  simp only [init, extract_base_env, extract_query_depth, extract_sig_info,
    to_canonical, henv, hc, hs, bind, Except.bind, pure, Except.pure] at hok
  repeat' split at hok
  all_goals cases hok
  all_goals simp_all

end SecretNet

namespace SecretNet

/-- The `InitSuccess` value produced by the concrete witness run of `init`
on `okCollab`. -/
def initW_s : InitSuccess :=
  ⟨[], spec_generate_contract_key [2] 7 [8] [7] none,
   spec_generate_admin_proof [1] (spec_generate_contract_key [2] 7 [8] [7] none)⟩

/-- The concrete witness run of `init`: every stage of `okCollab` succeeds. -/
theorem init_runW :
    init okCollab [] [0] (List.replicate 64 0) [0] [1] = .ok initW_s := by
  rfl

/-- Witness for C6 on the concrete `okCollab` run. -/
theorem claim_C6_witness :
    init okCollab [] [0] (List.replicate 64 0) [0] [1] = .ok initW_s ∧
    (okCollab.generate_contract_key [2] baseW.block_height
        (okCollab.calc_hash []) [7] none = .ok initW_s.contract_key ∧
     initW_s.admin_proof =
       okCollab.generate_admin_proof [1] initW_s.contract_key) :=
  ⟨init_runW, claim_C6_init_fresh_key okCollab [] [0] (List.replicate 64 0)
    [0] [1] baseW initW_s [2] [7] rfl rfl rfl init_runW⟩

end SecretNet

namespace SecretNet

/-- Claim C5: every successful `migrate` returns the contract key derived
from the transaction sender, block height, code hash and contract address
with predecessor `Some(old key)` — chaining it to the previous key — together
with the migration proof computed over the contract address, the code hash,
the old key and the new key. -/
theorem claim_C5_migrate_chained_key (c : Collab)
    (contract env msg sig_info admin admin_proof : Bytes) (base : BaseEnv)
    (s : MigrateSuccess) (csender ccontract ogkey : Bytes)
    (henv : c.serde_parse_env env = some base)
    (hc : c.from_human base.contract = some ccontract)
    (hs : c.from_human base.sender = some csender)
    (hog : base.og_contract_key = .ok ogkey)
    (hok : migrate c contract env msg sig_info admin admin_proof = .ok s) :
    c.generate_contract_key csender base.block_height (c.calc_hash contract)
      ccontract (some ogkey) = .ok s.new_contract_key ∧
    s.new_contract_key_proof = c.generate_contract_key_proof ccontract
      (c.calc_hash contract) ogkey s.new_contract_key := by
  simp only [migrate, extract_base_env, extract_query_depth, extract_sig_info,
    to_canonical, henv, hc, hs, hog, bind, Except.bind, pure,
    Except.pure] at hok
  repeat' split at hok
  all_goals cases hok
  all_goals simp_all

/-- The `MigrateSuccess` value produced by the concrete witness run of
`migrate` on `okCollab`. -/
def migrateW_s : MigrateSuccess :=
  ⟨[], spec_generate_contract_key [2] 7 [8] [7] (some [5]),
   spec_generate_contract_key_proof [7] [8] [5]
     (spec_generate_contract_key [2] 7 [8] [7] (some [5]))⟩

/-- The concrete witness run of `migrate`: the caller supplies the proof
derived for the sender, so the derived-proof path authorizes. -/
theorem migrate_runW :
    migrate okCollab [] [0] (List.replicate 64 0) [0] [1]
      (spec_generate_admin_proof [2] [5]) = .ok migrateW_s := by
  rfl

/-- Witness for C5 on the concrete `okCollab` run. -/
theorem claim_C5_witness :
    migrate okCollab [] [0] (List.replicate 64 0) [0] [1]
      (spec_generate_admin_proof [2] [5]) = .ok migrateW_s ∧
    (okCollab.generate_contract_key [2] baseW.block_height
        (okCollab.calc_hash []) [7] (some [5]) = .ok migrateW_s.new_contract_key ∧
     migrateW_s.new_contract_key_proof = okCollab.generate_contract_key_proof
       [7] (okCollab.calc_hash []) [5] migrateW_s.new_contract_key) :=
  ⟨migrate_runW, claim_C5_migrate_chained_key okCollab [] [0]
    (List.replicate 64 0) [0] [1] (spec_generate_admin_proof [2] [5]) baseW
    migrateW_s [2] [7] [5] rfl rfl rfl rfl migrate_runW⟩

end SecretNet

namespace SecretNet

/-- A collaborator bundle with the three key-derivation functions replaced;
used to state that `query` never invokes key derivation. -/
def with_key_derivation (c : Collab)
    (g : Bytes → Nat → Bytes → Bytes → Option Bytes → Except EnclaveError Bytes)
    (p : Bytes → Bytes → Bytes)
    (q : Bytes → Bytes → Bytes → Bytes → Bytes) : Collab :=
  { c with
    generate_contract_key := g
    generate_admin_proof := p
    generate_contract_key_proof := q }

/-- Claim C9: `query` never derives or mutates a contract key — its result
is unchanged under any replacement of the key-derivation collaborators (the
existing key is only validated and read) — and a successful query's output
is finalized by `post_process_output` with an empty contract address, an
empty contract hash and no reply params. -/
theorem claim_C9_query_frame (c : Collab)
    (g : Bytes → Nat → Bytes → Bytes → Option Bytes → Except EnclaveError Bytes)
    (p : Bytes → Bytes → Bytes)
    (q : Bytes → Bytes → Bytes → Bytes → Bytes)
    (contract env msg : Bytes) (s : QuerySuccess) :
    query (with_key_derivation c g p q) contract env msg =
      query c contract env msg ∧
    (query c contract env msg = .ok s →
      ∃ out sm, c.post_process_output out sm [] "" none [] true false =
        .ok s.output) := by
  constructor
  · rfl
  · intro hok
    simp only [query, extract_base_env, extract_query_depth, to_canonical,
      bind, Except.bind, pure, Except.pure] at hok
    repeat' split at hok
    all_goals cases hok
    all_goals (rename_i hpost; exact ⟨_, _, hpost⟩)

/-- The concrete witness run of `query` on `okCollab`. -/
theorem query_runW :
    query okCollab [] [0] (List.replicate 64 0) = .ok ⟨[]⟩ := by
  rfl

/-- Witness for C9 on the concrete `okCollab` run. -/
theorem claim_C9_witness :
    query okCollab [] [0] (List.replicate 64 0) = .ok ⟨[]⟩ ∧
    ∃ out sm, okCollab.post_process_output out sm [] "" none [] true false =
      .ok (QuerySuccess.mk []).output :=
  ⟨query_runW,
   (claim_C9_query_frame okCollab okCollab.generate_contract_key
     okCollab.generate_admin_proof okCollab.generate_contract_key_proof
     [] [0] (List.replicate 64 0) ⟨[]⟩).2 query_runW⟩

end SecretNet

namespace SecretNet

/-- Claim C8 as amended: for `init`, `migrate` and `update_admin`, a sender
or contract address that fails bech32 canonicalization makes the call fail
with the deserialization error, and for `handle` and `query` an
uncanonicalizable contract address does likewise — in every case for
arbitrary behaviour of the decryption and execution collaborators, i.e.
before decryption or execution.  (`handle` replaces an uncanonicalizable
sender with the empty canonical address and proceeds, and `query` never
canonicalizes the sender; see the counterexample.) -/
theorem claim_C8_canonicalization_failure (c : Collab)
    (contract env msg sig_info admin admin_proof new_admin : Bytes)
    (handle_type : Nat) (base : BaseEnv)
    (henv : c.serde_parse_env env = some base) :
    (c.from_human base.sender = none ∨ c.from_human base.contract = none →
       init c contract env msg sig_info admin =
         .error .FailedToDeserialize ∧
       migrate c contract env msg sig_info admin admin_proof =
         .error .FailedToDeserialize ∧
       update_admin c env sig_info admin admin_proof new_admin =
         .error .FailedToDeserialize) ∧
    (c.from_human base.contract = none →
       handle c contract env msg sig_info handle_type =
         .error .FailedToDeserialize ∧
       query c contract env msg = .error .FailedToDeserialize) := by
  constructor
  · intro hfail
    refine ⟨?_, ?_, ?_⟩ <;>
    · simp only [init, migrate, update_admin, extract_base_env,
        extract_query_depth, extract_sig_info, to_canonical,
        update_admin_auth, henv, bind, Except.bind, pure, Except.pure]
      repeat' split
      all_goals rcases hfail with hfail | hfail
      all_goals (try (rename_i heq; split at heq))
      all_goals simp_all
  · intro hcontract
    constructor <;>
    · simp only [handle, query, extract_base_env, extract_query_depth,
        to_canonical, henv, hcontract, bind, Except.bind, pure, Except.pure]
      repeat' split
      all_goals (try (rename_i heq; split at heq))
      all_goals simp_all

/-- A parsed environment whose sender does not bech32-decode under
`okCollab` (only `"s"` and `"k"` decode). -/
def badSenderBase : BaseEnv :=
  ⟨"bad", "k", 7, 9, [], .ok [5]⟩

/-- `okCollab` with `badSenderBase` as the parsed environment. -/
def badSenderCollab : Collab :=
  { okCollab with serde_parse_env := fun _ => some badSenderBase }

/-- Counterexample to claim C8 as stated: in `handle`, a sender address that
cannot be canonicalized does not fail the call — lines 1017-1020 of
`contract_operations.rs` substitute the empty canonical address and the call
runs to successful completion (here returning the engine's output). -/
theorem claim_C8_counterexample :
    badSenderCollab.from_human badSenderBase.sender = none ∧
    handle badSenderCollab [] [0] (List.replicate 64 0) [0] 0 =
      .ok ⟨List.replicate 64 0⟩ :=
  ⟨rfl, rfl⟩

/-- A parsed environment on which neither address bech32-decodes under
`okCollab`. -/
def badBothBase : BaseEnv :=
  ⟨"bad", "nope", 7, 9, [], .ok [5]⟩

/-- `okCollab` with `badBothBase` as the parsed environment. -/
def badBothCollab : Collab :=
  { okCollab with serde_parse_env := fun _ => some badBothBase }

/-- Witness for the amended C8 at concrete collaborators: a failing sender
kills `init`, `migrate` and `update_admin`, and a failing contract address
kills `handle` and `query`, all with the deserialization error. -/
theorem claim_C8_witness :
    (init badSenderCollab [] [0] (List.replicate 64 0) [0] [1] =
       .error .FailedToDeserialize ∧
     migrate badSenderCollab [] [0] (List.replicate 64 0) [0] [1] [2] =
       .error .FailedToDeserialize ∧
     update_admin badSenderCollab [0] [0] [1] [2] [3] =
       .error .FailedToDeserialize) ∧
    (handle badBothCollab [] [0] (List.replicate 64 0) [0] 0 =
       .error .FailedToDeserialize ∧
     query badBothCollab [] [0] (List.replicate 64 0) =
       .error .FailedToDeserialize) :=
  ⟨(claim_C8_canonicalization_failure badSenderCollab [] [0]
      (List.replicate 64 0) [0] [1] [2] [3] 0 badSenderBase rfl).1
      (Or.inl rfl),
   (claim_C8_canonicalization_failure badBothCollab [] [0]
      (List.replicate 64 0) [0] [1] [2] [3] 0 badBothBase rfl).2 rfl⟩

end SecretNet
